import Mathlib

/-!
Verification development for the Flex Portal browser-extension background
service worker (src/background.js).

The JavaScript code is shallowly embedded: the in-memory registries
(`activeNotifications`, `scheduledTasks`) become association lists with JS
`Map` semantics, asynchronous platform calls (chrome.notifications.create,
chrome.notifications.clear, ...) are modelled by explicit outcome
parameters of type `Except String Unit` (a rejected promise carries its
error message), and `chrome.storage.local` becomes an association list of
string keys to stored values.  Every definition follows the corresponding
source function; line numbers in the doc comments refer to
src/background.js.
-/

namespace FlexPortal

/-! ## Association-list maps with JS `Map` / storage-object semantics -/

section AssocMap

variable {α : Type}

/-- Lookup of a key in an association list: the value of the first pair whose
key matches (JS `Map.get` / property read). -/
def alookup (k : String) : List (String × α) → Option α
  | [] => none
  | p :: rest => if p.1 = k then some p.2 else alookup k rest

/-- JS `Map.has`. -/
def containsKey (m : List (String × α)) (k : String) : Bool :=
  match alookup k m with
  | some _ => true
  | none => false

/-- JS `Map.delete`: removes the entry for `k`, keeping the others in order. -/
def aerase : List (String × α) → String → List (String × α)
  | [], _ => []
  | p :: rest, k => if p.1 = k then aerase rest k else p :: aerase rest k

/-- Replacement of the value stored under a present key, position kept. -/
def replaceKey : List (String × α) → String → α → List (String × α)
  | [], _, _ => []
  | p :: rest, k, v =>
    if p.1 = k then (k, v) :: replaceKey rest k v else p :: replaceKey rest k v

/-- JS `Map.set`: replaces the value in place when the key is present,
otherwise appends a fresh entry at the end (insertion order). -/
def aset (m : List (String × α)) (k : String) (v : α) : List (String × α) :=
  if containsKey m k then replaceKey m k v else m ++ [(k, v)]

end AssocMap

/-! ## Notification Registry (src/background.js lines 14-109) -/

/-- Option bag passed to chrome.notifications calls.  A `none` field is an
absent JS property, so object spread leaves the other operand's field. -/
structure NotifOptions where
  icon : Option String := none
  badge : Option String := none
  requireInteraction : Option Bool := none
  title : Option String := none
  message : Option String := none
  clickAction : Option String := none
deriving DecidableEq

/-- JS object spread of one optional field: a present field of `over` wins. -/
def spreadField {β : Type} (base over : Option β) : Option β :=
  match over with
  | some v => some v
  | none => base

/-- JS object spread of two option bags, fields of `over` winning. -/
def mergeOptions (base over : NotifOptions) : NotifOptions where
  icon := spreadField base.icon over.icon
  badge := spreadField base.badge over.badge
  requireInteraction := spreadField base.requireInteraction over.requireInteraction
  title := spreadField base.title over.title
  message := spreadField base.message over.message
  clickAction := spreadField base.clickAction over.clickAction

/-- The literal defaults of showNotification (lines 28-33). -/
def showDefaults : NotifOptions where
  icon := some "icons/icon-48x48.png"
  badge := some "icons/icon-badge-32x32.png"
  requireInteraction := some false

/-- A value of the `activeNotifications` map (lines 40-43 and 70-74). -/
structure NotifRecord where
  createdAt : Int
  updatedAt : Option Int := none
  options : NotifOptions
deriving DecidableEq

/-- The `activeNotifications` map (line 15). -/
abbrev Registry := List (String × NotifRecord)

/-- One invocation of a chrome.notifications platform API. -/
inductive PlatformCall where
  | create (id : String)
  | update (id : String)
  | clear (id : String)
deriving DecidableEq

/-- Embeds showNotification (lines 26-49).  `createOut` is the outcome of
the awaited chrome.notifications.create call; on rejection the catch block
logs and the async function resolves, so the result is always `.ok`.  The
registry entry is only written after a successful create. -/
def showNotification (createOut : Except String Unit) (now : Int) (id : String)
    (options : NotifOptions) (reg : Registry) :
    Registry × List PlatformCall × Except String Unit :=
  let defaultOptions := mergeOptions showDefaults options
  match createOut with
  | .ok _ => (aset reg id { createdAt := now, options := defaultOptions },
      [PlatformCall.create id], .ok ())
  | .error _ => (reg, [PlatformCall.create id], .ok ())

/-- Embeds updateNotification (lines 56-80).  An absent id warns and returns
before any platform call; otherwise chrome.notifications.update is awaited
with the merged options and, on success, the record is rewritten.  The
catch block makes the function resolve in every case. -/
def updateNotification (updateOut : Except String Unit) (now : Int) (id : String)
    (options : NotifOptions) (reg : Registry) :
    Registry × List PlatformCall × Except String Unit :=
  match alookup id reg with
  | none => (reg, [], .ok ())
  | some cur =>
    let updatedOptions := mergeOptions cur.options options
    match updateOut with
    | .ok _ => (aset reg id
        { createdAt := cur.createdAt, updatedAt := some now, options := updatedOptions },
        [PlatformCall.update id], .ok ())
    | .error _ => (reg, [PlatformCall.update id], .ok ())

/-- Embeds clearNotification (lines 86-94).  chrome.notifications.clear is
awaited first; the registry delete runs only when it succeeds, and the
catch block swallows a failure, so the function always resolves. -/
def clearNotification (clearOut : Except String Unit) (id : String) (reg : Registry) :
    Registry × List PlatformCall × Except String Unit :=
  match clearOut with
  | .ok _ => (aerase reg id, [PlatformCall.clear id], .ok ())
  | .error _ => (reg, [PlatformCall.clear id], .ok ())

/-- The for-of loop of clearAllNotifications (lines 101-103): platform
clears are awaited one id at a time; the first rejection aborts the loop
(the surrounding try/catch is outside the loop).  Returns the ids whose
clear was attempted and the outcome of the loop. -/
def clearAllSweep (clearOut : String → Except String Unit) :
    List String → List String × Except String Unit
  | [] => ([], .ok ())
  | id :: rest =>
    match clearOut id with
    | .ok _ =>
      let r := clearAllSweep clearOut rest
      (id :: r.1, r.2)
    | .error e => ([id], .error e)

/-- Embeds clearAllNotifications (lines 99-109).  When the loop finishes,
`activeNotifications.clear()` empties the registry; when one platform clear
rejects, control jumps to the catch block, which only logs: the registry is
left untouched and the function still resolves. -/
def clearAllNotifications (clearOut : String → Except String Unit) (reg : Registry) :
    Registry × List String × Except String Unit :=
  let r := clearAllSweep clearOut (reg.map Prod.fst)
  match r.2 with
  | .ok _ => ([], r.1, .ok ())
  | .error _ => (reg, r.1, .ok ())

/-! ## Storage Gateway and background-task handlers (lines 335-427) -/

/-- A value stored under one chrome.storage.local key, projected to the
fields the background script reads and writes: the numeric `timestamp`
inspected by cleanupCache, the `lastSync` stamp written by syncData, and a
`maxAge` field so that spreading a task payload into a stored value (as
syncData does) loses nothing.  A `none` field is an absent JS property. -/
structure StoredValue where
  timestamp : Option Int := none
  lastSync : Option Int := none
  maxAge : Option Int := none
deriving DecidableEq

/-- The chrome.storage.local contents. -/
abbrev Storage := List (String × StoredValue)

/-- The `data` payload of a scheduled task, projected to the fields the
handlers read (`data.maxAge` in cleanupCache) or spread into storage. -/
structure TaskData where
  maxAge : Option Int := none
  timestamp : Option Int := none
deriving DecidableEq

/-- JS `x || d` for a numeric property `x`: an absent property or the falsy
number 0 selects the default. -/
def jsOr (x : Option Int) (d : Int) : Int :=
  match x with
  | some v => if v = 0 then d else v
  | none => d

/-- The removal test of cleanupCache (line 380):
`value.timestamp && (now - value.timestamp) > maxAge`.  A missing
`timestamp`, and the falsy timestamp 0, never qualify. -/
def isStaleEntry (now maxAge : Int) (v : StoredValue) : Bool :=
  match v.timestamp with
  | some t => if t = 0 then false else if now - t > maxAge then true else false
  | none => false

/-- The `keysToRemove` list built by cleanupCache (lines 377-383). -/
def cleanupKeysToRemove (now : Int) (data : TaskData) (st : Storage) : List String :=
  let maxAge := jsOr data.maxAge 604800000
  (st.filter (fun kv => isStaleEntry now maxAge kv.2)).map Prod.fst

/-- chrome.storage.local.remove: deletes the listed keys. -/
def removeKeys : Storage → List String → Storage
  | [], _ => []
  | p :: rest, ks => if p.1 ∈ ks then removeKeys rest ks else p :: removeKeys rest ks

/-- Embeds cleanupCache (lines 370-399): collect the keys whose value has a
truthy timestamp older than `maxAge`, then remove them. -/
def cleanupCache (now : Int) (data : TaskData) (st : Storage) : Storage :=
  removeKeys st (cleanupKeysToRemove now data st)

/-- Embeds syncData (lines 335-343): read `flexPortalData`, spread the task
payload over it, stamp `lastSync`, and write it back. -/
def syncData (now : Int) (data : TaskData) (st : Storage) : Storage :=
  let currentData : StoredValue :=
    match alookup "flexPortalData" st with
    | some v => v
    | none => {}
  let updatedData : StoredValue :=
    { timestamp := spreadField currentData.timestamp data.timestamp
      maxAge := spreadField currentData.maxAge data.maxAge
      lastSync := some now }
  aset st "flexPortalData" updatedData

/-- Embeds performBackgroundTask (lines 302-330).  CHECK_STATUS and
REFRESH_TOKEN only broadcast to tabs and leave storage alone; an unknown
action logs a warning and is a no-op. -/
def performBackgroundTask (id action : String) (data : TaskData) (now : Int)
    (st : Storage) : Storage × Except String Unit :=
  if action = "SYNC_DATA" then (syncData now data st, .ok ())
  else if action = "CHECK_STATUS" then (st, .ok ())
  else if action = "CLEANUP_CACHE" then (cleanupCache now data st, .ok ())
  else if action = "REFRESH_TOKEN" then (st, .ok ())
  else (st, .ok ())

/-! ## Task Scheduler (lines 252-294 and 433-442) -/

/-- The shape of the bound task execution: what the scheduler invokes for
one tick.  In the program this is always `performBackgroundTask`; the
scheduler itself only sees an awaited call that may reject. -/
abbrev ExecFn := String → String → TaskData → Int → Storage → Storage × Except String Unit

/-- The console.error line of executeTask (line 278). -/
def taskErrorLog (id e : String) : String :=
  "[Task Error] Error executing task " ++ id ++ ": " ++ e

/-- Embeds the executeTask closure (lines 274-280): the bound action is
awaited inside try/catch, so a rejection is logged and swallowed and the
closure always resolves. -/
def executeTaskRun (exec : ExecFn) (id action : String) (data : TaskData)
    (now : Int) (st : Storage) : Storage × List String × Except String Unit :=
  let r := exec id action data now st
  match r.2 with
  | .ok _ => (r.1, [], .ok ())
  | .error e => (r.1, [taskErrorLog id e], .ok ())

/-- The task configuration passed to scheduleBackgroundTask; `interval`
defaults to 0 and `data` to an empty object (line 264). -/
structure TaskSpec where
  id : String
  action : String
  interval : Int := 0
  data : TaskData := {}
deriving DecidableEq

/-- A value of the `scheduledTasks` map (line 288). -/
structure TaskRecord where
  action : String
  interval : Int
  data : TaskData
  intervalId : Nat
deriving DecidableEq

/-- The background coordinator state: the `scheduledTasks` map, the set of
live setInterval timers (each handle paired with the task id it was armed
for), a counter producing fresh timer handles, and the storage contents. -/
structure BgState where
  scheduledTasks : List (String × TaskRecord) := []
  liveTimers : List (Nat × String) := []
  nextTimerId : Nat := 0
  storage : Storage := []
deriving DecidableEq

/-- The cancel-and-replace prologue of scheduleBackgroundTask
(lines 269-272): when a task with this id is recorded, its setInterval
timer is cleared and its record deleted. -/
def cancelPhase (id : String) (s : BgState) : BgState :=
  match alookup id s.scheduledTasks with
  | some r =>
    { s with
      liveTimers := s.liveTimers.filter (fun p => if p.1 = r.intervalId then false else true)
      scheduledTasks := aerase s.scheduledTasks id }
  | none => s

/-- Embeds scheduleBackgroundTask (lines 263-294): an existing task with the
same id has its timer cleared and its record deleted (`cancelPhase`); the
bound action runs once immediately through `executeTaskRun`; a positive
interval then arms a fresh recurring timer and records the task.  Nothing
in the body can reject, so the function always resolves. -/
def scheduleBackgroundTask (exec : ExecFn) (now : Int) (task : TaskSpec)
    (s : BgState) : BgState × List String × Except String Unit :=
  let s1 := cancelPhase task.id s
  let e := executeTaskRun exec task.id task.action task.data now s1.storage
  if task.interval > 0 then
    ({ s1 with
        storage := e.1
        liveTimers := s1.liveTimers ++ [(s1.nextTimerId, task.id)]
        scheduledTasks := aset s1.scheduledTasks task.id
          { action := task.action, interval := task.interval,
            data := task.data, intervalId := s1.nextTimerId }
        nextTimerId := s1.nextTimerId + 1 }, e.2.1, .ok ())
  else
    ({ s1 with storage := e.1 }, e.2.1, .ok ())

/-- Embeds one firing of the recurring timer armed at line 287: the interval
callback is exactly the executeTask closure, so it touches storage only and
never lets an error escape. -/
def timerTick (exec : ExecFn) (now : Int) (id action : String) (data : TaskData)
    (s : BgState) : BgState × List String × Except String Unit :=
  let e := executeTaskRun exec id action data now s.storage
  ({ s with storage := e.1 }, e.2.1, e.2.2)

/-- Embeds cancelScheduledTask (lines 433-442). -/
def cancelScheduledTask (id : String) (s : BgState) : BgState × Bool :=
  match alookup id s.scheduledTasks with
  | some task =>
    ({ s with
        liveTimers := s.liveTimers.filter (fun p => if p.1 = task.intervalId then false else true)
        scheduledTasks := aerase s.scheduledTasks id }, true)
  | none => (s, false)

/-- One externally triggered scheduler operation. -/
inductive SchedOp where
  | schedule (now : Int) (task : TaskSpec)
  | cancel (id : String)

/-- Applies one scheduler operation; the bound action is the program's
dispatcher `performBackgroundTask`. -/
def stepOp (s : BgState) : SchedOp → BgState
  | .schedule now task => (scheduleBackgroundTask performBackgroundTask now task s).1
  | .cancel id => (cancelScheduledTask id s).1

/-- The coordinator state after a sequence of scheduler operations, starting
from the empty maps of a fresh service worker. -/
def runOps (ops : List SchedOp) : BgState :=
  ops.foldl stepOp {}

/-! ## Message Router (lines 118-177) -/

/-- A response delivered through sendResponse, projected to the fields the
listener writes: the success flag, an error message, the status payload of
GET_EXTENSION_STATUS and the list payload of GET_ACTIVE_NOTIFICATIONS. -/
structure ActiveNotif where
  id : String
  createdAt : Int
  updatedAt : Option Int
  options : NotifOptions
deriving DecidableEq

structure RouterResponse where
  success : Bool
  error : Option String := none
  status : Option String := none
  timestamp : Option String := none
  version : Option String := none
  notifications : Option (List ActiveNotif) := none
deriving DecidableEq

/-- The reply combinator attached to every asynchronous handler call:
`.then` sends a success response, `.catch` sends the failure with the
rejection message (for example lines 124-126). -/
def routerReply (o : Except String Unit) : RouterResponse :=
  match o with
  | .ok _ => { success := true }
  | .error m => { success := false, error := some m }

/-- The outcomes of the chrome.notifications platform calls a message may
trigger, one per API.  `clearOutcome` is per notification id, as each id is
cleared by its own platform call. -/
structure NotifEnv where
  createOutcome : Except String Unit := .ok ()
  updateOutcome : Except String Unit := .ok ()
  clearOutcome : String → Except String Unit := fun _ => .ok ()

/-- An inbound request envelope: the action tag plus the optional fields the
handlers destructure (`request.id`, `request.options`, `request.task`).
`task` is `none` when the SCHEDULE_TASK message carries no task object. -/
structure Request where
  action : String
  id : String := ""
  options : NotifOptions := {}
  task : Option TaskSpec := none

/-- The TypeError raised when scheduleBackgroundTask destructures a missing
`task` object (line 264), which rejects the async call. -/
def jsDestructureError : String :=
  "Cannot destructure property id of undefined"

/-- What one listener invocation produces: every response eventually passed
to sendResponse, whether the listener returned `true` to keep the channel
open for an asynchronous reply, and an exception escaping the listener body
(always `none`: the body is wrapped in try/catch, lines 121-176). -/
structure ListenerResult where
  responses : List RouterResponse
  keepOpen : Bool
  uncaught : Option String := none
deriving DecidableEq

/-- Embeds the chrome.runtime.onMessage listener (lines 118-177): the switch
on `request.action`, the then/catch reply combinator on every asynchronous
handler, the synchronous replies of GET_ACTIVE_NOTIFICATIONS and
GET_EXTENSION_STATUS, and the synchronous default reply for an unknown
action.  `nowIso` and `ver` stand for the ambient ISO timestamp and
manifest version strings. -/
def onMessage (env : NotifEnv) (now : Int) (nowIso ver : String) (req : Request)
    (reg : Registry) (bg : BgState) : Registry × BgState × ListenerResult :=
  if req.action = "SHOW_NOTIFICATION" then
    let r := showNotification env.createOutcome now req.id req.options reg
    (r.1, bg, { responses := [routerReply r.2.2], keepOpen := true })
  else if req.action = "UPDATE_NOTIFICATION" then
    let r := updateNotification env.updateOutcome now req.id req.options reg
    (r.1, bg, { responses := [routerReply r.2.2], keepOpen := true })
  else if req.action = "CLEAR_NOTIFICATION" then
    let r := clearNotification (env.clearOutcome req.id) req.id reg
    (r.1, bg, { responses := [routerReply r.2.2], keepOpen := true })
  else if req.action = "CLEAR_ALL_NOTIFICATIONS" then
    let r := clearAllNotifications env.clearOutcome reg
    (r.1, bg, { responses := [routerReply r.2.2], keepOpen := true })
  else if req.action = "GET_ACTIVE_NOTIFICATIONS" then
    let notifs := reg.map (fun p =>
      ActiveNotif.mk p.1 p.2.createdAt p.2.updatedAt p.2.options)
    (reg, bg, { responses := [{ success := true, notifications := some notifs }],
                keepOpen := false })
  else if req.action = "SCHEDULE_TASK" then
    match req.task with
    | some t =>
      let r := scheduleBackgroundTask performBackgroundTask now t bg
      (reg, r.1, { responses := [routerReply r.2.2], keepOpen := true })
    | none =>
      (reg, bg, { responses := [routerReply (.error jsDestructureError)], keepOpen := true })
  else if req.action = "GET_EXTENSION_STATUS" then
    let resp : RouterResponse :=
      { success := true, status := some "active",
        timestamp := some nowIso, version := some ver }
    (reg, bg, { responses := [resp], keepOpen := false })
  else
    let resp : RouterResponse := { success := false, error := some "Unknown action" }
    (reg, bg, { responses := [resp], keepOpen := false })

/-- The seven action names the switch recognizes. -/
def knownActions : List String :=
  ["SHOW_NOTIFICATION", "UPDATE_NOTIFICATION", "CLEAR_NOTIFICATION",
   "CLEAR_ALL_NOTIFICATIONS", "GET_ACTIVE_NOTIFICATIONS", "SCHEDULE_TASK",
   "GET_EXTENSION_STATUS"]

/-- The settlement of the asynchronous handler a request dispatches to, or
`none` when the request is handled synchronously (or unrecognized).  Mirrors
the dispatch of `onMessage` case by case. -/
def dispatchedOutcome (env : NotifEnv) (now : Int) (req : Request)
    (reg : Registry) (bg : BgState) : Option (Except String Unit) :=
  if req.action = "SHOW_NOTIFICATION" then
    some (showNotification env.createOutcome now req.id req.options reg).2.2
  else if req.action = "UPDATE_NOTIFICATION" then
    some (updateNotification env.updateOutcome now req.id req.options reg).2.2
  else if req.action = "CLEAR_NOTIFICATION" then
    some (clearNotification (env.clearOutcome req.id) req.id reg).2.2
  else if req.action = "CLEAR_ALL_NOTIFICATIONS" then
    some (clearAllNotifications env.clearOutcome reg).2.2
  else if req.action = "GET_ACTIVE_NOTIFICATIONS" then none
  else if req.action = "SCHEDULE_TASK" then
    some (match req.task with
          | some t => (scheduleBackgroundTask performBackgroundTask now t bg).2.2
          | none => .error jsDestructureError)
  else none

/-! ## Lifecycle listeners (lines 451-511, 588-594, 661-680) -/

/-- The default configuration written on first install (lines 664-670). -/
structure DefaultSettings where
  extensionEnabled : Bool
  autoRefresh : Bool
  refreshInterval : Int
  notifications : Bool
  theme : String
deriving DecidableEq

def defaultSettings : DefaultSettings :=
  { extensionEnabled := true, autoRefresh := false, refreshInterval := 5000,
    notifications := true, theme := "light" }

/-- The `extensionSettings` bag read by initializeBackgroundTasks
(lines 475-476). -/
structure ExtSettings where
  enableAutoSync : Bool := false
  syncInterval : Option Int := none
  enableStatusCheck : Bool := false
  statusCheckInterval : Option Int := none
deriving DecidableEq

/-- One write to chrome.storage.local, tagged by what is written: the
default-settings bag, a single other key, or a removal of keys. -/
inductive StorageWrite where
  | setSettings (v : DefaultSettings)
  | setKey (k : String)
  | removeKeys (ks : List String)
deriving DecidableEq

/-- The storage writes performed by initializeBackgroundTasks
(lines 473-511): the auto-sync schedule runs SYNC_DATA immediately, which
writes the `flexPortalData` key; the status-check schedule only broadcasts;
the unconditional daily-cleanup schedule runs CLEANUP_CACHE immediately,
which removes the stale keys when there are any (lines 385-393). -/
def initBackgroundTasksWrites (settings : ExtSettings) (now : Int)
    (st : Storage) : List StorageWrite :=
  let w1 : List StorageWrite :=
    if settings.enableAutoSync then [StorageWrite.setKey "flexPortalData"] else []
  let st1 : Storage := if settings.enableAutoSync then syncData now {} st else st
  let w2 : List StorageWrite := []
  let ks := cleanupKeysToRemove now { maxAge := some 604800000 } st1
  let w3 : List StorageWrite := if ks = [] then [] else [StorageWrite.removeKeys ks]
  w1 ++ w2 ++ w3

/-- The storage writes the chrome.runtime.onInstalled listeners perform for
one lifecycle event: the listener at lines 451-458 opens a tab and writes
nothing, the listener at lines 592-594 only manages the offscreen document,
and the listener at lines 661-680 writes the default configuration when the
reason is a first install and only logs on an update. -/
def onInstalledWrites (reason : String) : List StorageWrite :=
  [] ++ [] ++
  (if reason = "install" then [StorageWrite.setSettings defaultSettings] else [])

/-- The storage writes performed on browser startup: the listener at
lines 463-468 runs initializeBackgroundTasks, the listener at lines 588-590
only manages the offscreen document. -/
def onStartupWrites (settings : ExtSettings) (now : Int) (st : Storage) :
    List StorageWrite :=
  initBackgroundTasksWrites settings now st ++ []

/-! ## Lemmas about the association-map primitives -/

section AssocMapLemmas

variable {α : Type}

theorem alookup_aerase_self (m : List (String × α)) (k : String) :
    alookup k (aerase m k) = none := by
  induction m with
  | nil => rfl
  | cons p rest ih =>
    by_cases h : p.1 = k
    · simpa [aerase, h] using ih
    · simpa [aerase, alookup, h] using ih

theorem alookup_aerase_ne (m : List (String × α)) (k k' : String) (h : k' ≠ k) :
    alookup k' (aerase m k) = alookup k' m := by
  have hk : ¬ (k = k') := fun e => h e.symm
  induction m with
  | nil => rfl
  | cons p rest ih =>
    by_cases hp : p.1 = k
    · simpa [aerase, alookup, hp, hk] using ih
    · by_cases hq : p.1 = k'
      · simp [aerase, alookup, hp, hq, h]
      · simpa [aerase, alookup, hp, hq] using ih

theorem aerase_of_lookup_none (m : List (String × α)) (k : String)
    (h : alookup k m = none) : aerase m k = m := by
  induction m with
  | nil => rfl
  | cons p rest ih =>
    by_cases hp : p.1 = k
    · simp [alookup, hp] at h
    · simp only [alookup, hp, if_false] at h
      simp [aerase, hp, ih h]

theorem alookup_replaceKey_self (m : List (String × α)) (k : String) (v : α)
    (hc : containsKey m k = true) : alookup k (replaceKey m k v) = some v := by
  induction m with
  | nil => simp [containsKey, alookup] at hc
  | cons p rest ih =>
    by_cases hp : p.1 = k
    · simp [replaceKey, alookup, hp]
    · have hc' : containsKey rest k = true := by
        simpa [containsKey, alookup, hp] using hc
      simpa [replaceKey, alookup, hp] using ih hc'

theorem alookup_replaceKey_ne (m : List (String × α)) (k k' : String) (v : α)
    (h : k' ≠ k) : alookup k' (replaceKey m k v) = alookup k' m := by
  have hk : ¬ (k = k') := fun e => h e.symm
  induction m with
  | nil => rfl
  | cons p rest ih =>
    by_cases hp : p.1 = k
    · simpa [replaceKey, alookup, hp, hk] using ih
    · by_cases hq : p.1 = k'
      · simp [replaceKey, alookup, hp, hq, h]
      · simpa [replaceKey, alookup, hp, hq] using ih

theorem alookup_append_right_self (m : List (String × α)) (k : String) (v : α)
    (hc : containsKey m k = false) : alookup k (m ++ [(k, v)]) = some v := by
  induction m with
  | nil => simp [alookup]
  | cons p rest ih =>
    by_cases hp : p.1 = k
    · simp [containsKey, alookup, hp] at hc
    · have hc' : containsKey rest k = false := by
        simpa [containsKey, alookup, hp] using hc
      simpa [alookup, hp] using ih hc'

theorem alookup_aset_self (m : List (String × α)) (k : String) (v : α) :
    alookup k (aset m k v) = some v := by
  unfold aset
  by_cases hc : containsKey m k
  · simp only [hc, if_true]
    exact alookup_replaceKey_self m k v hc
  · simp only [hc, if_false]
    exact alookup_append_right_self m k v (by simpa using hc)

theorem alookup_append_single_ne (m : List (String × α)) (k k' : String) (v : α)
    (h : k' ≠ k) : alookup k' (m ++ [(k, v)]) = alookup k' m := by
  have hk : ¬ (k = k') := fun e => h e.symm
  induction m with
  | nil => simp [alookup, hk]
  | cons p rest ih =>
    by_cases hq : p.1 = k'
    · simp [alookup, hq]
    · simpa [alookup, hq] using ih

theorem alookup_aset_ne (m : List (String × α)) (k k' : String) (v : α)
    (h : k' ≠ k) : alookup k' (aset m k v) = alookup k' m := by
  unfold aset
  by_cases hc : containsKey m k
  · simp only [hc, if_true]
    exact alookup_replaceKey_ne m k k' v h
  · simp only [hc, if_false]
    exact alookup_append_single_ne m k k' v h

theorem alookup_some_mem (m : List (String × α)) (k : String) (v : α)
    (h : alookup k m = some v) : (k, v) ∈ m := by
  induction m with
  | nil => simp [alookup] at h
  | cons p rest ih =>
    by_cases hp : p.1 = k
    · simp only [alookup, hp, if_true, Option.some.injEq] at h
      apply List.mem_cons.mpr
      left
      cases p
      simp_all
    · simp only [alookup, hp, if_false] at h
      exact List.mem_cons_of_mem _ (ih h)

theorem mem_alookup_of_nodup (m : List (String × α)) (k : String) (v : α)
    (hn : (m.map Prod.fst).Nodup) (h : (k, v) ∈ m) : alookup k m = some v := by
  induction m with
  | nil => simp at h
  | cons p rest ih =>
    simp only [List.map_cons, List.nodup_cons] at hn
    rcases List.mem_cons.mp h with he | hm
    · simp [alookup, ← he]
    · have hp : p.1 ≠ k := by
        intro e
        exact hn.1 (e ▸ List.mem_map_of_mem Prod.fst hm)
      simp only [alookup, hp, if_false]
      exact ih hn.2 hm

theorem alookup_removeKeys_mem (st : Storage) (ks : List String) (k : String)
    (h : k ∈ ks) : alookup k (removeKeys st ks) = none := by
  induction st with
  | nil => rfl
  | cons p rest ih =>
    by_cases hp : p.1 ∈ ks
    · simpa [removeKeys, hp] using ih
    · have hne : ¬ (p.1 = k) := fun e => hp (e ▸ h)
      simpa [removeKeys, alookup, hp, hne] using ih

theorem alookup_removeKeys_not_mem (st : Storage) (ks : List String) (k : String)
    (h : k ∉ ks) : alookup k (removeKeys st ks) = alookup k st := by
  induction st with
  | nil => rfl
  | cons p rest ih =>
    by_cases hp : p.1 ∈ ks
    · have hne : ¬ (p.1 = k) := fun e => h (e ▸ hp)
      simpa [removeKeys, alookup, hp, hne] using ih
    · by_cases hq : p.1 = k
      · simp [removeKeys, alookup, hp, hq, h]
      · simpa [removeKeys, alookup, hp, hq] using ih

end AssocMapLemmas

/-! ## Scheduler invariant -/

/-- The inductive invariant of the Task Scheduler state: every live timer
handle is the one recorded for its task id, handles are pairwise distinct,
and every handle (live or recorded) is below the fresh-handle counter. -/
structure SchedInv (s : BgState) : Prop where
  owned : ∀ p ∈ s.liveTimers,
    ∃ r, alookup p.2 s.scheduledTasks = some r ∧ r.intervalId = p.1
  fstNodup : (s.liveTimers.map Prod.fst).Nodup
  timerLt : ∀ p ∈ s.liveTimers, p.1 < s.nextTimerId
  recLt : ∀ id r, alookup id s.scheduledTasks = some r → r.intervalId < s.nextTimerId

theorem schedule_pos_eq (exec : ExecFn) (now : Int) (task : TaskSpec)
    (s : BgState) (hi : task.interval > 0) :
    scheduleBackgroundTask exec now task s =
      ({ cancelPhase task.id s with
          storage := (executeTaskRun exec task.id task.action task.data now
            (cancelPhase task.id s).storage).1
          liveTimers := (cancelPhase task.id s).liveTimers ++
            [((cancelPhase task.id s).nextTimerId, task.id)]
          scheduledTasks := aset (cancelPhase task.id s).scheduledTasks task.id
            { action := task.action, interval := task.interval,
              data := task.data, intervalId := (cancelPhase task.id s).nextTimerId }
          nextTimerId := (cancelPhase task.id s).nextTimerId + 1 },
        (executeTaskRun exec task.id task.action task.data now
          (cancelPhase task.id s).storage).2.1, .ok ()) := by
  unfold scheduleBackgroundTask
  rw [if_pos hi]

theorem schedule_nonpos_eq (exec : ExecFn) (now : Int) (task : TaskSpec)
    (s : BgState) (hi : ¬ task.interval > 0) :
    scheduleBackgroundTask exec now task s =
      ({ cancelPhase task.id s with
          storage := (executeTaskRun exec task.id task.action task.data now
            (cancelPhase task.id s).storage).1 },
        (executeTaskRun exec task.id task.action task.data now
          (cancelPhase task.id s).storage).2.1, .ok ()) := by
  unfold scheduleBackgroundTask
  rw [if_neg hi]

theorem cancelScheduledTask_eq_of_some (id : String) (s : BgState) (r : TaskRecord)
    (h : alookup id s.scheduledTasks = some r) :
    cancelScheduledTask id s = (cancelPhase id s, true) := by
  unfold cancelScheduledTask cancelPhase
  rw [h]

theorem cancelPhase_inv (id : String) (s : BgState) (hs : SchedInv s) :
    SchedInv (cancelPhase id s)
    ∧ alookup id (cancelPhase id s).scheduledTasks = none
    ∧ (cancelPhase id s).nextTimerId = s.nextTimerId
    ∧ (cancelPhase id s).storage = s.storage
    ∧ ∀ p ∈ (cancelPhase id s).liveTimers, p ∈ s.liveTimers := by
  unfold cancelPhase
  cases hr : alookup id s.scheduledTasks with
  | none =>
    exact ⟨hs, hr, rfl, rfl, fun p hp => hp⟩
  | some r =>
    refine ⟨⟨?_, ?_, ?_, ?_⟩, ?_, rfl, rfl, ?_⟩
    · intro p hp
      have hmem := (List.mem_filter.mp hp).1
      have hcond := (List.mem_filter.mp hp).2
      have hne : p.1 ≠ r.intervalId := by
        by_cases hc : p.1 = r.intervalId
        · simp [hc] at hcond
        · exact hc
      obtain ⟨r', hr', hid⟩ := hs.owned p hmem
      by_cases hpid : p.2 = id
      · rw [hpid, hr] at hr'
        cases hr'
        exact absurd hid.symm hne
      · exact ⟨r', by rw [alookup_aerase_ne _ _ _ hpid]; exact hr', hid⟩
    · exact List.Nodup.sublist (List.Sublist.map Prod.fst (List.filter_sublist _)) hs.fstNodup
    · intro p hp
      exact hs.timerLt p (List.mem_filter.mp hp).1
    · intro id' r' hr'
      by_cases hq : id' = id
      · rw [hq, alookup_aerase_self] at hr'
        cases hr'
      · rw [alookup_aerase_ne _ _ _ hq] at hr'
        exact hs.recLt id' r' hr'
    · exact alookup_aerase_self _ _
    · intro p hp
      exact (List.mem_filter.mp hp).1

theorem schedule_inv (exec : ExecFn) (now : Int) (task : TaskSpec) (s : BgState)
    (hs : SchedInv s) : SchedInv (scheduleBackgroundTask exec now task s).1 := by
  obtain ⟨h1, hnone, hnext, _, hsub⟩ := cancelPhase_inv task.id s hs
  by_cases hi : task.interval > 0
  · rw [schedule_pos_eq exec now task s hi]
    refine ⟨?_, ?_, ?_, ?_⟩
    · intro p hp
      rcases List.mem_append.mp hp with hold | hnew
      · obtain ⟨r', hr', hid⟩ := h1.owned p hold
        have hpid : p.2 ≠ task.id := by
          intro e
          rw [e, hnone] at hr'
          cases hr'
        exact ⟨r', by rw [alookup_aset_ne _ _ _ _ hpid]; exact hr', hid⟩
      · have hp' : p = ((cancelPhase task.id s).nextTimerId, task.id) := by
          simpa using hnew
        subst hp'
        exact ⟨_, alookup_aset_self _ _ _, rfl⟩
    · rw [List.map_append]
      refine List.Nodup.append h1.fstNodup (by simp) ?_
      intro a ha hb
      simp only [List.map_cons, List.map_nil, List.mem_singleton] at hb
      obtain ⟨p, hp, he⟩ := List.mem_map.mp ha
      have := h1.timerLt p hp
      omega
    · intro p hp
      rcases List.mem_append.mp hp with hold | hnew
      · have := h1.timerLt p hold
        simp only
        omega
      · have hp' : p = ((cancelPhase task.id s).nextTimerId, task.id) := by
          simpa using hnew
        subst hp'
        simp only
        omega
    · intro id' r' hr'
      by_cases hq : id' = task.id
      · rw [hq, alookup_aset_self] at hr'
        cases hr'
        simp only
        omega
      · rw [alookup_aset_ne _ _ _ _ hq] at hr'
        have := h1.recLt id' r' hr'
        simp only
        omega
  · rw [schedule_nonpos_eq exec now task s hi]
    exact ⟨h1.owned, h1.fstNodup, h1.timerLt, h1.recLt⟩

theorem cancel_inv (id : String) (s : BgState) (hs : SchedInv s) :
    SchedInv (cancelScheduledTask id s).1 := by
  unfold cancelScheduledTask
  cases hr : alookup id s.scheduledTasks with
  | none => exact hs
  | some r =>
    have := (cancelPhase_inv id s hs).1
    unfold cancelPhase at this
    rw [hr] at this
    exact this

theorem stepOp_inv (s : BgState) (op : SchedOp) (hs : SchedInv s) :
    SchedInv (stepOp s op) := by
  cases op with
  | schedule now task => exact schedule_inv _ now task s hs
  | cancel id => exact cancel_inv id s hs

theorem foldl_stepOp_inv (ops : List SchedOp) (t : BgState) (ht : SchedInv t) :
    SchedInv (ops.foldl stepOp t) := by
  induction ops generalizing t with
  | nil => exact ht
  | cons op rest ih => exact ih (stepOp t op) (stepOp_inv t op ht)

theorem init_inv : SchedInv ({} : BgState) := by
  constructor
  · intro p hp
    cases hp
  · exact List.nodup_nil
  · intro p hp
    cases hp
  · intro id r hr
    simp [alookup] at hr

theorem runOps_inv (ops : List SchedOp) : SchedInv (runOps ops) :=
  foldl_stepOp_inv ops {} init_inv

theorem cancelPhase_of_some (id : String) (s : BgState) (r : TaskRecord)
    (h : alookup id s.scheduledTasks = some r) :
    cancelPhase id s =
      { s with
        liveTimers := s.liveTimers.filter (fun p => if p.1 = r.intervalId then false else true)
        scheduledTasks := aerase s.scheduledTasks id } := by
  unfold cancelPhase
  rw [h]

theorem cancelPhase_of_none (id : String) (s : BgState)
    (h : alookup id s.scheduledTasks = none) : cancelPhase id s = s := by
  unfold cancelPhase
  rw [h]

theorem filter_snd_length_le_one (l : List (Nat × String)) (id : String)
    (hn : (l.map Prod.fst).Nodup)
    (hsame : ∀ p ∈ l, ∀ q ∈ l, p.2 = id → q.2 = id → p.1 = q.1) :
    (l.filter (fun p => if p.2 = id then true else false)).length ≤ 1 := by
  induction l with
  | nil => simp
  | cons a l ih =>
    simp only [List.map_cons, List.nodup_cons] at hn
    by_cases ha : a.2 = id
    · have hnil : l.filter (fun p => if p.2 = id then true else false) = [] := by
        rw [List.eq_nil_iff_forall_not_mem]
        intro q hq
        have hql := List.mem_of_mem_filter hq
        have hcond := List.of_mem_filter hq
        have hq2 : q.2 = id := by
          by_cases h2 : q.2 = id
          · exact h2
          · simp [h2] at hcond
        have heq : a.1 = q.1 :=
          hsame a (List.mem_cons_self a l) q (List.mem_cons_of_mem a hql) ha hq2
        exact hn.1 (heq ▸ List.mem_map_of_mem Prod.fst hql)
      have hcons : List.filter (fun p => if p.2 = id then true else false) (a :: l)
          = a :: List.filter (fun p => if p.2 = id then true else false) l := by
        simp [List.filter_cons, ha]
      rw [hcons, hnil]
      simp
    · have hrest := ih hn.2 (fun p hp q hq => hsame p (List.mem_cons_of_mem a hp)
        q (List.mem_cons_of_mem a hq))
      simpa [List.filter_cons, ha] using hrest

/-- Positivity of recorded intervals: every record held by the
`scheduledTasks` map was armed with a positive interval. -/
def PosInv (s : BgState) : Prop :=
  ∀ id r, alookup id s.scheduledTasks = some r → r.interval > 0

theorem cancelPhase_posInv (id : String) (s : BgState) (hs : PosInv s) :
    PosInv (cancelPhase id s) := by
  unfold cancelPhase
  cases hr : alookup id s.scheduledTasks with
  | none => exact hs
  | some r =>
    intro id' r' hr'
    by_cases hq : id' = id
    · rw [hq, alookup_aerase_self] at hr'
      cases hr'
    · rw [alookup_aerase_ne _ _ _ hq] at hr'
      exact hs id' r' hr'

theorem stepOp_posInv (s : BgState) (op : SchedOp) (hs : PosInv s) :
    PosInv (stepOp s op) := by
  cases op with
  | schedule now task =>
    show PosInv (scheduleBackgroundTask performBackgroundTask now task s).1
    have h1 := cancelPhase_posInv task.id s hs
    by_cases hi : task.interval > 0
    · rw [schedule_pos_eq _ now task s hi]
      intro id' r' hr'
      by_cases hq : id' = task.id
      · rw [hq, alookup_aset_self] at hr'
        cases hr'
        exact hi
      · rw [alookup_aset_ne _ _ _ _ hq] at hr'
        exact h1 id' r' hr'
    · rw [schedule_nonpos_eq _ now task s hi]
      exact h1
  | cancel id =>
    show PosInv (cancelScheduledTask id s).1
    unfold cancelScheduledTask
    cases hr : alookup id s.scheduledTasks with
    | none => exact hs
    | some r =>
      have := cancelPhase_posInv id s hs
      unfold cancelPhase at this
      rw [hr] at this
      exact this

theorem foldl_stepOp_posInv (ops : List SchedOp) (t : BgState) (ht : PosInv t) :
    PosInv (ops.foldl stepOp t) := by
  induction ops generalizing t with
  | nil => exact ht
  | cons op rest ih => exact ih (stepOp t op) (stepOp_posInv t op ht)

theorem runOps_posInv (ops : List SchedOp) : PosInv (runOps ops) := by
  refine foldl_stepOp_posInv ops {} ?_
  intro id r hr
  simp [alookup] at hr

theorem cancelPhase_lookup_self (id : String) (s : BgState) :
    alookup id (cancelPhase id s).scheduledTasks = none := by
  unfold cancelPhase
  cases hr : alookup id s.scheduledTasks with
  | none => exact hr
  | some r => exact alookup_aerase_self _ _

theorem cancelPhase_storage (id : String) (s : BgState) :
    (cancelPhase id s).storage = s.storage := by
  unfold cancelPhase
  cases alookup id s.scheduledTasks <;> rfl

theorem cancelPhase_nextTimerId (id : String) (s : BgState) :
    (cancelPhase id s).nextTimerId = s.nextTimerId := by
  unfold cancelPhase
  cases alookup id s.scheduledTasks <;> rfl

/-! ## Claim theorems -/

/-- C2: for every sequence of scheduler operations, scheduling a task whose
id already has an active recurring timer cancels the prior timer and
replaces its record before arming the new one, so at every reachable state
at most one live timer exists per task id.  The first conjunct is the
exactly-one-timer-per-id invariant on every reachable state; the second
says that after re-scheduling an id whose record was `r`, the old handle
`r.intervalId` is no longer live and the old record is gone. -/
theorem claim_c2_one_timer_per_id :
    (∀ (ops : List SchedOp) (id : String),
      ((runOps ops).liveTimers.filter (fun p => if p.2 = id then true else false)).length ≤ 1)
    ∧ (∀ (ops : List SchedOp) (now : Int) (task : TaskSpec) (r : TaskRecord),
        alookup task.id (runOps ops).scheduledTasks = some r →
        (∀ p ∈ (scheduleBackgroundTask performBackgroundTask now task (runOps ops)).1.liveTimers,
            p.1 ≠ r.intervalId)
        ∧ alookup task.id
            (scheduleBackgroundTask performBackgroundTask now task (runOps ops)).1.scheduledTasks
            ≠ some r) := by
  constructor
  · intro ops id
    have hs := runOps_inv ops
    apply filter_snd_length_le_one _ _ hs.fstNodup
    intro p hp q hq hpid hqid
    obtain ⟨rp, hrp, hip⟩ := hs.owned p hp
    obtain ⟨rq, hrq, hiq⟩ := hs.owned q hq
    rw [hpid] at hrp
    rw [hqid] at hrq
    rw [hrp] at hrq
    cases hrq
    rw [← hip, ← hiq]
  · intro ops now task r hr
    have hs := runOps_inv ops
    have hlt : r.intervalId < (runOps ops).nextTimerId := hs.recLt task.id r hr
    have hcp := cancelPhase_of_some task.id (runOps ops) r hr
    by_cases hi : task.interval > 0
    · rw [schedule_pos_eq _ now task _ hi]
      constructor
      · intro p hp
        rcases List.mem_append.mp hp with hold | hnew
        · rw [hcp] at hold
          have hcond := List.of_mem_filter hold
          by_cases hc : p.1 = r.intervalId
          · simp [hc] at hcond
          · exact hc
        · have hp' : p = ((cancelPhase task.id (runOps ops)).nextTimerId, task.id) := by
            simpa using hnew
          subst hp'
          have hn := cancelPhase_nextTimerId task.id (runOps ops)
          simp only [hn]
          omega
      · rw [alookup_aset_self]
        intro he
        have h2 := Option.some.inj he
        have h3 : (cancelPhase task.id (runOps ops)).nextTimerId = r.intervalId :=
          congrArg TaskRecord.intervalId h2
        have h4 := cancelPhase_nextTimerId task.id (runOps ops)
        omega
    · rw [schedule_nonpos_eq _ now task _ hi]
      constructor
      · intro p hp
        rw [show ({ cancelPhase task.id (runOps ops) with
            storage := (executeTaskRun performBackgroundTask task.id task.action task.data now
              (cancelPhase task.id (runOps ops)).storage).1 } : BgState).liveTimers
            = (cancelPhase task.id (runOps ops)).liveTimers from rfl, hcp] at hp
        have hcond := List.of_mem_filter hp
        by_cases hc : p.1 = r.intervalId
        · simp [hc] at hcond
        · exact hc
      · rw [show ({ cancelPhase task.id (runOps ops) with
            storage := (executeTaskRun performBackgroundTask task.id task.action task.data now
              (cancelPhase task.id (runOps ops)).storage).1 } : BgState).scheduledTasks
            = (cancelPhase task.id (runOps ops)).scheduledTasks from rfl,
          cancelPhase_lookup_self]
        intro he
        cases he

/-- Witness for C2: after scheduling task id t1 with interval 5 (getting
timer handle 0) and re-scheduling the same id with interval 7, the fresh
timer handle 1 differs from the cancelled handle 0, and the old record is
gone from the map. -/
theorem claim_c2_one_timer_per_id_witness :
    (1 : Nat) ≠ 0
    ∧ alookup "t1" (scheduleBackgroundTask performBackgroundTask 0
        ⟨"t1", "CHECK_STATUS", 7, {}⟩
        (runOps [SchedOp.schedule 0 ⟨"t1", "CHECK_STATUS", 5, {}⟩])).1.scheduledTasks
      ≠ some ⟨"CHECK_STATUS", 5, {}, 0⟩ := by
  have h := claim_c2_one_timer_per_id.2 [SchedOp.schedule 0 ⟨"t1", "CHECK_STATUS", 5, {}⟩] 0
    ⟨"t1", "CHECK_STATUS", 7, {}⟩ ⟨"CHECK_STATUS", 5, {}, 0⟩ (by decide)
  exact ⟨h.1 (1, "t1") (by decide), h.2⟩

/-- C10: the `scheduledTasks` map only ever holds tasks armed with a
positive interval (first conjunct, over every reachable state); scheduling
a one-shot task (interval 0, the default for an omitted interval) executes
it immediately but records nothing, so a subsequent cancel returns false,
and it still cancels any recurring timer previously armed for the id. -/
theorem claim_c10_one_shot_not_recorded :
    (∀ (ops : List SchedOp) (id : String) (r : TaskRecord),
        alookup id (runOps ops).scheduledTasks = some r → r.interval > 0)
    ∧ (∀ (now : Int) (task : TaskSpec) (s : BgState), task.interval = 0 →
        alookup task.id
            (scheduleBackgroundTask performBackgroundTask now task s).1.scheduledTasks = none
        ∧ cancelScheduledTask task.id (scheduleBackgroundTask performBackgroundTask now task s).1
            = ((scheduleBackgroundTask performBackgroundTask now task s).1, false)
        ∧ (scheduleBackgroundTask performBackgroundTask now task s).1.storage
            = (executeTaskRun performBackgroundTask task.id task.action task.data now s.storage).1
        ∧ (∀ r0 : TaskRecord, alookup task.id s.scheduledTasks = some r0 →
            ∀ p ∈ (scheduleBackgroundTask performBackgroundTask now task s).1.liveTimers,
              p.1 ≠ r0.intervalId)) := by
  constructor
  · intro ops id r hr
    exact runOps_posInv ops id r hr
  · intro now task s h0
    have hi : ¬ task.interval > 0 := by omega
    rw [schedule_nonpos_eq _ now task s hi]
    refine ⟨?_, ?_, ?_, ?_⟩
    · exact cancelPhase_lookup_self task.id s
    · unfold cancelScheduledTask
      rw [show ({ cancelPhase task.id s with
          storage := (executeTaskRun performBackgroundTask task.id task.action task.data now
            (cancelPhase task.id s).storage).1 } : BgState).scheduledTasks
          = (cancelPhase task.id s).scheduledTasks from rfl, cancelPhase_lookup_self]
    · rw [show ({ cancelPhase task.id s with
          storage := (executeTaskRun performBackgroundTask task.id task.action task.data now
            (cancelPhase task.id s).storage).1 } : BgState).storage
          = (executeTaskRun performBackgroundTask task.id task.action task.data now
            (cancelPhase task.id s).storage).1 from rfl, cancelPhase_storage]
    · intro r0 hr0 p hp
      rw [show ({ cancelPhase task.id s with
          storage := (executeTaskRun performBackgroundTask task.id task.action task.data now
            (cancelPhase task.id s).storage).1 } : BgState).liveTimers
          = (cancelPhase task.id s).liveTimers from rfl,
        cancelPhase_of_some task.id s r0 hr0] at hp
      have hcond := List.of_mem_filter hp
      by_cases hc : p.1 = r0.intervalId
      · simp [hc] at hcond
      · exact hc

/-- Witness for C10: scheduling the one-shot task once (interval 0) over a
state where id once holds a recurring task yields a state with no record
for the id, a failing cancel, and the storage of the immediate
execution. -/
theorem claim_c10_one_shot_not_recorded_witness :
    alookup "once" (scheduleBackgroundTask performBackgroundTask 0
        ⟨"once", "CHECK_STATUS", 0, {}⟩
        (scheduleBackgroundTask performBackgroundTask 0
          ⟨"once", "CHECK_STATUS", 5, {}⟩ {}).1).1.scheduledTasks = none
    ∧ cancelScheduledTask "once" (scheduleBackgroundTask performBackgroundTask 0
        ⟨"once", "CHECK_STATUS", 0, {}⟩
        (scheduleBackgroundTask performBackgroundTask 0
          ⟨"once", "CHECK_STATUS", 5, {}⟩ {}).1).1
      = ((scheduleBackgroundTask performBackgroundTask 0
          ⟨"once", "CHECK_STATUS", 0, {}⟩
          (scheduleBackgroundTask performBackgroundTask 0
            ⟨"once", "CHECK_STATUS", 5, {}⟩ {}).1).1, false) := by
  have h := claim_c10_one_shot_not_recorded.2 0 ⟨"once", "CHECK_STATUS", 0, {}⟩
    (scheduleBackgroundTask performBackgroundTask 0
      ⟨"once", "CHECK_STATUS", 5, {}⟩ {}).1 rfl
  exact ⟨h.1, h.2.1⟩

theorem executeTaskRun_error (exec : ExecFn) (id action : String) (data : TaskData)
    (now : Int) (st : Storage) (e : String)
    (h : (exec id action data now st).2 = Except.error e) :
    executeTaskRun exec id action data now st =
      ((exec id action data now st).1, [taskErrorLog id e], .ok ()) := by
  simp only [executeTaskRun]
  rw [h]

/-- C6: when the immediate execution performed while scheduling a task with
a positive interval rejects, the failure is logged through the executeTask
wrapper and swallowed, the call still resolves, and the recurring timer is
still armed for the task id; and every later firing of the timer likewise
logs its own failure and resolves, leaving the timers and the task map
untouched, so subsequent ticks still run. -/
theorem claim_c6_failures_logged_and_swallowed :
    (∀ (exec : ExecFn) (now : Int) (task : TaskSpec) (s : BgState) (e : String),
        task.interval > 0 →
        (∀ st : Storage, (exec task.id task.action task.data now st).2 = Except.error e) →
        (scheduleBackgroundTask exec now task s).2.1 = [taskErrorLog task.id e]
        ∧ (scheduleBackgroundTask exec now task s).2.2 = Except.ok ()
        ∧ (s.nextTimerId, task.id) ∈ (scheduleBackgroundTask exec now task s).1.liveTimers)
    ∧ (∀ (exec : ExecFn) (now : Int) (id action : String) (data : TaskData)
        (s : BgState) (e : String),
        (∀ st : Storage, (exec id action data now st).2 = Except.error e) →
        (timerTick exec now id action data s).2.1 = [taskErrorLog id e]
        ∧ (timerTick exec now id action data s).2.2 = Except.ok ()
        ∧ (timerTick exec now id action data s).1.liveTimers = s.liveTimers
        ∧ (timerTick exec now id action data s).1.scheduledTasks = s.scheduledTasks) := by
  constructor
  · intro exec now task s e hi h
    rw [schedule_pos_eq exec now task s hi,
      executeTaskRun_error exec task.id task.action task.data now
        (cancelPhase task.id s).storage e (h _)]
    refine ⟨rfl, rfl, ?_⟩
    rw [show ({ cancelPhase task.id s with
        storage := (exec task.id task.action task.data now (cancelPhase task.id s).storage).1
        liveTimers := (cancelPhase task.id s).liveTimers ++
          [((cancelPhase task.id s).nextTimerId, task.id)]
        scheduledTasks := aset (cancelPhase task.id s).scheduledTasks task.id
          { action := task.action, interval := task.interval,
            data := task.data, intervalId := (cancelPhase task.id s).nextTimerId }
        nextTimerId := (cancelPhase task.id s).nextTimerId + 1 } : BgState).liveTimers
        = (cancelPhase task.id s).liveTimers ++
          [((cancelPhase task.id s).nextTimerId, task.id)] from rfl,
      cancelPhase_nextTimerId]
    exact List.mem_append_right _ (by simp)
  · intro exec now id action data s e h
    unfold timerTick
    rw [executeTaskRun_error exec id action data now s.storage e (h _)]
    exact ⟨rfl, rfl, rfl, rfl⟩

/-- Witness for C6: a bound action that always rejects with message boom,
scheduled with interval 5 from the empty state, yields the task-error log
entry and an armed timer with handle 0. -/
theorem claim_c6_failures_logged_and_swallowed_witness :
    (scheduleBackgroundTask (fun _ _ _ _ st => (st, Except.error "boom")) 0
        ⟨"w", "SYNC_DATA", 5, {}⟩ {}).2.1 = [taskErrorLog "w" "boom"]
    ∧ (0, "w") ∈ (scheduleBackgroundTask (fun _ _ _ _ st => (st, Except.error "boom")) 0
        ⟨"w", "SYNC_DATA", 5, {}⟩ {}).1.liveTimers := by
  have h := claim_c6_failures_logged_and_swallowed.1
    (fun _ _ _ _ st => (st, Except.error "boom")) 0 ⟨"w", "SYNC_DATA", 5, {}⟩ {} "boom"
    (by decide) (fun _ => rfl)
  exact ⟨h.1, h.2.2⟩

/-- C7: updating a notification id absent from the registry only warns: the
registry is returned unchanged, no platform call is made, and the call
resolves. -/
theorem claim_c7_update_absent_id_noop :
    ∀ (updateOut : Except String Unit) (now : Int) (id : String)
      (options : NotifOptions) (reg : Registry),
      alookup id reg = none →
      updateNotification updateOut now id options reg = (reg, [], Except.ok ()) := by
  intro updateOut now id options reg h
  unfold updateNotification
  rw [h]

/-- Witness for C7 at an empty registry. -/
theorem claim_c7_update_absent_id_noop_witness :
    updateNotification (Except.ok ()) 0 "ghost" {} [] = ([], [], Except.ok ()) :=
  claim_c7_update_absent_id_noop (Except.ok ()) 0 "ghost" {} [] rfl

/-- C8 counterexample: when the platform clear call rejects, a show
followed by a clear leaves the record for the id in the registry, so the
round-trip claim fails as stated. -/
theorem claim_c8_counterexample :
    alookup "n1" ((clearNotification (Except.error "boom") "n1"
        ((showNotification (Except.ok ()) 0 "n1" {} []).1)).1) ≠ none := by
  decide

/-- C8 amended: show followed by clear leaves no record for the id provided
the platform clear call succeeds (if it rejects, the delete is skipped and
the record survives); and clearing an id absent from the registry leaves
the registry unchanged and does not throw, whatever the platform clear
outcome. -/
theorem claim_c8_show_clear_roundtrip_amended :
    (∀ (createOut : Except String Unit) (now : Int) (id : String)
        (options : NotifOptions) (reg : Registry) (clearOut : Except String Unit),
        clearOut = Except.ok () →
        alookup id ((clearNotification clearOut id
          ((showNotification createOut now id options reg).1)).1) = none)
    ∧ (∀ (clearOut : Except String Unit) (id : String) (reg : Registry),
        alookup id reg = none →
        (clearNotification clearOut id reg).1 = reg
        ∧ (clearNotification clearOut id reg).2.2 = Except.ok ()) := by
  constructor
  · intro createOut now id options reg clearOut hc
    subst hc
    exact alookup_aerase_self _ _
  · intro clearOut id reg h
    cases clearOut with
    | ok u => exact ⟨aerase_of_lookup_none reg id h, rfl⟩
    | error e => exact ⟨rfl, rfl⟩

/-- Witness for C8: a concrete show-then-clear round trip with a successful
platform clear, and a clear on the empty registry. -/
theorem claim_c8_show_clear_roundtrip_amended_witness :
    alookup "n1" ((clearNotification (Except.ok ()) "n1"
        ((showNotification (Except.ok ()) 0 "n1" {} []).1)).1) = none
    ∧ (clearNotification (Except.ok ()) "n1" []).1 = [] := by
  exact ⟨claim_c8_show_clear_roundtrip_amended.1 (Except.ok ()) 0 "n1" {} []
      (Except.ok ()) rfl,
    (claim_c8_show_clear_roundtrip_amended.2 (Except.ok ()) "n1" [] rfl).1⟩

theorem clearAllSweep_all_ok (clearOut : String → Except String Unit)
    (ids : List String) (h : ∀ id ∈ ids, clearOut id = Except.ok ()) :
    clearAllSweep clearOut ids = (ids, Except.ok ()) := by
  induction ids with
  | nil => rfl
  | cons id rest ih =>
    have hid := h id (List.mem_cons_self id rest)
    have hrest := ih (fun j hj => h j (List.mem_cons_of_mem id hj))
    simp [clearAllSweep, hid, hrest]

theorem clearAllSweep_fails (clearOut : String → Except String Unit)
    (pre : List String) (id : String) (post : List String) (e : String)
    (hpre : ∀ j ∈ pre, clearOut j = Except.ok ())
    (hid : clearOut id = Except.error e) :
    clearAllSweep clearOut (pre ++ id :: post) = (pre ++ [id], Except.error e) := by
  induction pre with
  | nil => simp [clearAllSweep, hid]
  | cons j rest ih =>
    have hj := hpre j (List.mem_cons_self j rest)
    have hrest := ih (fun j' hj' => hpre j' (List.mem_cons_of_mem j hj'))
    simp [clearAllSweep, hj, hrest]

/-- C4 counterexample: with two tracked ids where the platform clear of the
first rejects, the loop aborts (the second id is never attempted) and the
registry keeps both records, so a failure of one clear does stop the
sweep, contrary to the claim. -/
theorem claim_c4_counterexample :
    (clearAllNotifications
        (fun id => if id = "a" then Except.error "boom" else Except.ok ())
        [("a", { createdAt := 0, options := {} }),
         ("b", { createdAt := 0, options := {} })]).2.1 = ["a"]
    ∧ (clearAllNotifications
        (fun id => if id = "a" then Except.error "boom" else Except.ok ())
        [("a", { createdAt := 0, options := {} }),
         ("b", { createdAt := 0, options := {} })]).1
      = [("a", { createdAt := 0, options := {} }),
         ("b", { createdAt := 0, options := {} })] := by
  exact ⟨rfl, rfl⟩

/-- C4 amended: when every platform clear succeeds, clearAllNotifications
attempts every tracked id in order and empties the registry; when the clear
of one id rejects, the loop aborts there — the ids after it are not
attempted and the registry is left unchanged — while the call itself still
resolves (the error is only logged). -/
theorem claim_c4_clear_all_amended :
    (∀ (clearOut : String → Except String Unit) (reg : Registry),
        (∀ id ∈ reg.map Prod.fst, clearOut id = Except.ok ()) →
        clearAllNotifications clearOut reg = ([], reg.map Prod.fst, Except.ok ()))
    ∧ (∀ (clearOut : String → Except String Unit) (reg : Registry)
        (pre : List String) (id : String) (post : List String) (e : String),
        reg.map Prod.fst = pre ++ id :: post →
        (∀ j ∈ pre, clearOut j = Except.ok ()) →
        clearOut id = Except.error e →
        clearAllNotifications clearOut reg = (reg, pre ++ [id], Except.ok ())) := by
  constructor
  · intro clearOut reg h
    unfold clearAllNotifications
    rw [clearAllSweep_all_ok clearOut _ h]
  · intro clearOut reg pre id post e hk hpre hid
    unfold clearAllNotifications
    rw [hk, clearAllSweep_fails clearOut pre id post e hpre hid]

/-- Witness for C4: three tracked ids where the middle platform clear
rejects: the sweep attempts the first two ids only and the registry is
untouched. -/
theorem claim_c4_clear_all_amended_witness :
    clearAllNotifications (fun id => if id = "x" then Except.error "gone" else Except.ok ())
        [("w", { createdAt := 0, options := {} }), ("x", { createdAt := 1, options := {} }),
         ("y", { createdAt := 2, options := {} })]
      = ([("w", { createdAt := 0, options := {} }), ("x", { createdAt := 1, options := {} }),
          ("y", { createdAt := 2, options := {} })], ["w", "x"], Except.ok ()) := by
  exact claim_c4_clear_all_amended.2
    (fun id => if id = "x" then Except.error "gone" else Except.ok ())
    [("w", { createdAt := 0, options := {} }), ("x", { createdAt := 1, options := {} }),
     ("y", { createdAt := 2, options := {} })]
    ["w"] "x" ["y"] "gone" rfl
    (by intro j hj; rw [List.mem_singleton] at hj; subst hj; rfl) rfl

/-- C1 counterexample: with a failing platform create call, the caller of
SHOW_NOTIFICATION still receives success true (the failure is swallowed
inside showNotification), contradicting the claim that the failure is
reported back; the registry part of the claim does hold. -/
theorem claim_c1_counterexample :
    (onMessage { createOutcome := Except.error "invalid icon path" } 0 "" ""
        { action := "SHOW_NOTIFICATION", id := "n1" } [] {}).2.2.responses
      = [{ success := true }] := by
  rfl

/-- C1 amended: when the platform create call fails, showNotification
catches and logs the error and resolves, so the caller of the
SHOW_NOTIFICATION message receives success true; no record for the id is
stored (the registry is returned unchanged). -/
theorem claim_c1_show_failure_amended :
    ∀ (env : NotifEnv) (now : Int) (nowIso ver : String) (req : Request)
      (reg : Registry) (bg : BgState) (e : String),
      req.action = "SHOW_NOTIFICATION" → env.createOutcome = Except.error e →
      (onMessage env now nowIso ver req reg bg).2.2.responses = [{ success := true }]
      ∧ (onMessage env now nowIso ver req reg bg).1 = reg := by
  intro env now nowIso ver req reg bg e ha he
  unfold onMessage
  rw [ha, if_pos rfl, he]
  exact ⟨rfl, rfl⟩

/-- Witness for C1 at a concrete failing environment. -/
theorem claim_c1_show_failure_amended_witness :
    (onMessage { createOutcome := Except.error "throttled" } 0 "" ""
        { action := "SHOW_NOTIFICATION", id := "n2" } [] {}).2.2.responses
      = [{ success := true }]
    ∧ (onMessage { createOutcome := Except.error "throttled" } 0 "" ""
        { action := "SHOW_NOTIFICATION", id := "n2" } [] {}).1 = [] := by
  exact claim_c1_show_failure_amended { createOutcome := Except.error "throttled" }
    0 "" "" { action := "SHOW_NOTIFICATION", id := "n2" } [] {} "throttled" rfl rfl

/-- C3: the message listener never lets an exception escape to the
transport layer (first conjunct); whenever the handler a request dispatches
to settles with a rejection carrying message m, the single reply is the
failure response with that message (second conjunct); and a request with an
unrecognized action name gets the failure reply Unknown action
synchronously, without keeping the response channel open (third
conjunct). -/
theorem claim_c3_router_error_containment :
    (∀ (env : NotifEnv) (now : Int) (nowIso ver : String) (req : Request)
        (reg : Registry) (bg : BgState),
        (onMessage env now nowIso ver req reg bg).2.2.uncaught = none)
    ∧ (∀ (env : NotifEnv) (now : Int) (nowIso ver : String) (req : Request)
        (reg : Registry) (bg : BgState) (m : String),
        dispatchedOutcome env now req reg bg = some (Except.error m) →
        (onMessage env now nowIso ver req reg bg).2.2.responses
          = [{ success := false, error := some m }])
    ∧ (∀ (env : NotifEnv) (now : Int) (nowIso ver : String) (req : Request)
        (reg : Registry) (bg : BgState),
        req.action ∉ knownActions →
        (onMessage env now nowIso ver req reg bg).2.2.responses
          = [{ success := false, error := some "Unknown action" }]
        ∧ (onMessage env now nowIso ver req reg bg).2.2.keepOpen = false) := by
  refine ⟨?_, ?_, ?_⟩
  · intro env now nowIso ver req reg bg
    unfold onMessage
    repeat' split
    all_goals rfl
  · intro env now nowIso ver req reg bg m h
    unfold dispatchedOutcome at h
    unfold onMessage
    by_cases h1 : req.action = "SHOW_NOTIFICATION"
    · rw [if_pos h1] at h ⊢
      have hres : (showNotification env.createOutcome now req.id req.options reg).2.2
          = Except.error m := Option.some.inj h
      show [routerReply (showNotification env.createOutcome now req.id req.options reg).2.2]
          = [{ success := false, error := some m }]
      rw [hres]
      rfl
    rw [if_neg h1] at h ⊢
    by_cases h2 : req.action = "UPDATE_NOTIFICATION"
    · rw [if_pos h2] at h ⊢
      have hres : (updateNotification env.updateOutcome now req.id req.options reg).2.2
          = Except.error m := Option.some.inj h
      show [routerReply (updateNotification env.updateOutcome now req.id req.options reg).2.2]
          = [{ success := false, error := some m }]
      rw [hres]
      rfl
    rw [if_neg h2] at h ⊢
    by_cases h3 : req.action = "CLEAR_NOTIFICATION"
    · rw [if_pos h3] at h ⊢
      have hres : (clearNotification (env.clearOutcome req.id) req.id reg).2.2
          = Except.error m := Option.some.inj h
      show [routerReply (clearNotification (env.clearOutcome req.id) req.id reg).2.2]
          = [{ success := false, error := some m }]
      rw [hres]
      rfl
    rw [if_neg h3] at h ⊢
    by_cases h4 : req.action = "CLEAR_ALL_NOTIFICATIONS"
    · rw [if_pos h4] at h ⊢
      have hres : (clearAllNotifications env.clearOutcome reg).2.2
          = Except.error m := Option.some.inj h
      show [routerReply (clearAllNotifications env.clearOutcome reg).2.2]
          = [{ success := false, error := some m }]
      rw [hres]
      rfl
    rw [if_neg h4] at h ⊢
    by_cases h5 : req.action = "GET_ACTIVE_NOTIFICATIONS"
    · rw [if_pos h5] at h
      cases h
    rw [if_neg h5] at h ⊢
    by_cases h6 : req.action = "SCHEDULE_TASK"
    · rw [if_pos h6] at h ⊢
      have hinj := Option.some.inj h
      cases ht : req.task with
      | some t =>
        rw [ht] at hinj
        have hres : (scheduleBackgroundTask performBackgroundTask now t bg).2.2
            = Except.error m := hinj
        show [routerReply (scheduleBackgroundTask performBackgroundTask now t bg).2.2]
            = [{ success := false, error := some m }]
        rw [hres]
        rfl
      | none =>
        rw [ht] at hinj
        have hres : (Except.error jsDestructureError : Except String Unit)
            = Except.error m := hinj
        injection hres with hm
        show [routerReply (Except.error jsDestructureError)]
            = [{ success := false, error := some m }]
        rw [← hm]
        rfl
    rw [if_neg h6] at h
    cases h
  · intro env now nowIso ver req reg bg h
    simp only [knownActions, List.mem_cons, List.not_mem_nil, or_false] at h
    push_neg at h
    obtain ⟨h1, h2, h3, h4, h5, h6, h7⟩ := h
    unfold onMessage
    rw [if_neg h1, if_neg h2, if_neg h3, if_neg h4, if_neg h5, if_neg h6, if_neg h7]
    exact ⟨rfl, rfl⟩

/-- Witness for C3: a SCHEDULE_TASK request with no task object makes the
handler reject with the destructuring TypeError and yields the matching
failure reply, and a request with the unrecognized action NOPE gets the
synchronous Unknown action reply. -/
theorem claim_c3_router_error_containment_witness :
    (onMessage {} 0 "" "" { action := "SCHEDULE_TASK" } [] {}).2.2.responses
      = [{ success := false, error := some jsDestructureError }]
    ∧ (onMessage {} 0 "" "" { action := "NOPE" } [] {}).2.2.responses
      = [{ success := false, error := some "Unknown action" }]
    ∧ (onMessage {} 0 "" "" { action := "NOPE" } [] {}).2.2.keepOpen = false := by
  have ha := claim_c3_router_error_containment.2.1 {} 0 "" ""
    { action := "SCHEDULE_TASK" } [] {} jsDestructureError rfl
  have hb := claim_c3_router_error_containment.2.2 {} 0 "" ""
    { action := "NOPE" } [] {} (by decide)
  exact ⟨ha, hb.1, hb.2⟩

theorem jsOr_some_ne (m d : Int) (h : m ≠ 0) : jsOr (some m) d = m := by
  simp [jsOr, h]

/-- C5 counterexample: two stored entries the claim says CLEANUP_CACHE must
remove are kept by the code.  An entry with timestamp 0 (the epoch, older
than the cutoff now - m since 0 < 1000000 - 1000) survives because the code
treats the falsy timestamp 0 as absent; and with payload maxAge 0 an entry
5 ms old (older than now - 0) survives because the code replaces the falsy
maxAge 0 with the 7-day default. -/
theorem claim_c5_counterexample :
    cleanupCache 1000000 { maxAge := some 1000 } [("k", { timestamp := some 0 })]
      = [("k", { timestamp := some 0 })]
    ∧ (0 : Int) < 1000000 - 1000
    ∧ cleanupCache 1000000 { maxAge := some 0 } [("j", { timestamp := some 999995 })]
      = [("j", { timestamp := some 999995 })]
    ∧ (999995 : Int) < 1000000 - 0 := by
  exact ⟨rfl, by decide, rfl, by decide⟩

/-- C5 amended: for a cleanup payload with maxAge m ≠ 0, CLEANUP_CACHE
removes exactly those stored entries whose value carries a nonzero
timestamp t with now - t > m, leaving every other entry unchanged (a
missing or zero timestamp, or a payload maxAge of 0, falls outside this: 0
is falsy in the source); and scheduling the task with a positive interval
performs that cleanup immediately and arms a recurring timer with that
interval for the task id. -/
theorem claim_c5_cleanup_cache_amended :
    (∀ (now m : Int) (st : Storage) (k : String) (v : StoredValue),
        m ≠ 0 → (st.map Prod.fst).Nodup → alookup k st = some v →
        (isStaleEntry now m v = true →
          alookup k (cleanupCache now { maxAge := some m } st) = none)
        ∧ (isStaleEntry now m v = false →
          alookup k (cleanupCache now { maxAge := some m } st) = some v))
    ∧ (∀ (now : Int) (task : TaskSpec) (s : BgState),
        task.action = "CLEANUP_CACHE" → task.interval > 0 →
        (scheduleBackgroundTask performBackgroundTask now task s).1.storage
            = cleanupCache now task.data s.storage
        ∧ alookup task.id
            (scheduleBackgroundTask performBackgroundTask now task s).1.scheduledTasks
          = some { action := task.action, interval := task.interval,
                   data := task.data, intervalId := s.nextTimerId }
        ∧ (s.nextTimerId, task.id)
            ∈ (scheduleBackgroundTask performBackgroundTask now task s).1.liveTimers
        ∧ (scheduleBackgroundTask performBackgroundTask now task s).2.2 = Except.ok ()) := by
  constructor
  · intro now m st k v hm hn hv
    have hjs : jsOr (some m) 604800000 = m := jsOr_some_ne m 604800000 hm
    constructor
    · intro hstale
      unfold cleanupCache
      apply alookup_removeKeys_mem
      unfold cleanupKeysToRemove
      rw [hjs]
      exact List.mem_map_of_mem Prod.fst
        (List.mem_filter.mpr ⟨alookup_some_mem st k v hv, hstale⟩)
    · intro hfresh
      have hnot : k ∉ cleanupKeysToRemove now { maxAge := some m } st := by
        unfold cleanupKeysToRemove
        rw [hjs]
        intro hk
        obtain ⟨kv, hkv, hfst⟩ := List.mem_map.mp hk
        have hmem := List.mem_of_mem_filter hkv
        have hcond := List.of_mem_filter hkv
        have hkv2 : alookup k st = some kv.2 := by
          rw [← hfst]
          exact mem_alookup_of_nodup st kv.1 kv.2 hn (by simpa using hmem)
        rw [hv] at hkv2
        have hvv : v = kv.2 := Option.some.inj hkv2
        rw [← hvv] at hcond
        rw [hfresh] at hcond
        cases hcond
      unfold cleanupCache
      rw [alookup_removeKeys_not_mem st _ k hnot]
      exact hv
  · intro now task s ha hi
    have hperf : ∀ st0 : Storage,
        executeTaskRun performBackgroundTask task.id task.action task.data now st0
          = (cleanupCache now task.data st0, [], Except.ok ()) := by
      intro st0
      rw [ha]
      rfl
    rw [schedule_pos_eq _ now task s hi]
    refine ⟨?_, ?_, ?_, rfl⟩
    · show (executeTaskRun performBackgroundTask task.id task.action task.data now
        (cancelPhase task.id s).storage).1 = cleanupCache now task.data s.storage
      rw [hperf, cancelPhase_storage]
    · show alookup task.id (aset (cancelPhase task.id s).scheduledTasks task.id
        { action := task.action, interval := task.interval, data := task.data,
          intervalId := (cancelPhase task.id s).nextTimerId })
        = some { action := task.action, interval := task.interval,
                 data := task.data, intervalId := s.nextTimerId }
      rw [alookup_aset_self, cancelPhase_nextTimerId]
    · show (s.nextTimerId, task.id) ∈ (cancelPhase task.id s).liveTimers ++
        [((cancelPhase task.id s).nextTimerId, task.id)]
      rw [cancelPhase_nextTimerId]
      exact List.mem_append_right _ (by simp)

/-- Witness for C5: a stale entry is removed and a fresh one kept, and the
daily-cleanup scenario schedule records the task with interval 86400000 and
timer handle 0. -/
theorem claim_c5_cleanup_cache_amended_witness :
    alookup "old" (cleanupCache 10 { maxAge := some 3 }
        [("old", { timestamp := some 1 }), ("new", { timestamp := some 9 })]) = none
    ∧ alookup "new" (cleanupCache 10 { maxAge := some 3 }
        [("old", { timestamp := some 1 }), ("new", { timestamp := some 9 })])
      = some { timestamp := some 9 }
    ∧ alookup "daily-cleanup" (scheduleBackgroundTask performBackgroundTask 0
        ⟨"daily-cleanup", "CLEANUP_CACHE", 86400000, { maxAge := some 604800000 }⟩
        {}).1.scheduledTasks
      = some { action := "CLEANUP_CACHE", interval := 86400000,
               data := { maxAge := some 604800000 }, intervalId := 0 } := by
  have h1 := claim_c5_cleanup_cache_amended.1 10 3
    [("old", { timestamp := some 1 }), ("new", { timestamp := some 9 })]
    "old" { timestamp := some 1 } (by decide) (by decide) rfl
  have h2 := claim_c5_cleanup_cache_amended.1 10 3
    [("old", { timestamp := some 1 }), ("new", { timestamp := some 9 })]
    "new" { timestamp := some 9 } (by decide) (by decide) rfl
  have h3 := claim_c5_cleanup_cache_amended.2 0
    ⟨"daily-cleanup", "CLEANUP_CACHE", 86400000, { maxAge := some 604800000 }⟩ {}
    rfl (by decide)
  exact ⟨h1.1 rfl, h2.2 rfl, h3.2.1⟩

theorem initWrites_shape (settings : ExtSettings) (now : Int) (st : Storage) :
    ∀ w ∈ initBackgroundTasksWrites settings now st,
      (∃ k, w = StorageWrite.setKey k) ∨ (∃ ks, w = StorageWrite.removeKeys ks) := by
  intro w hw
  simp only [initBackgroundTasksWrites] at hw
  rcases List.mem_append.mp hw with h12 | h3
  · rcases List.mem_append.mp h12 with h1 | h2
    · left
      by_cases hA : settings.enableAutoSync
      · rw [if_pos hA] at h1
        exact ⟨"flexPortalData", by simpa using h1⟩
      · rw [if_neg hA] at h1
        cases h1
    · cases h2
  · right
    by_cases hA : settings.enableAutoSync
    · rw [if_pos hA] at h3
      by_cases hK : cleanupKeysToRemove now { maxAge := some 604800000 }
          (syncData now {} st) = []
      · rw [if_pos hK] at h3
        cases h3
      · rw [if_neg hK] at h3
        exact ⟨_, by simpa using h3⟩
    · rw [if_neg hA] at h3
      by_cases hK : cleanupKeysToRemove now { maxAge := some 604800000 } st = []
      · rw [if_pos hK] at h3
        cases h3
      · rw [if_neg hK] at h3
        exact ⟨_, by simpa using h3⟩

/-- C9: the install lifecycle event makes exactly one storage write of the
default settings bag with exactly the literal values of the source; any
other onInstalled reason (such as an update) writes nothing; and a browser
startup, whatever the stored settings and storage contents, never rewrites
the default settings (its only writes are the sync key write and the
cleanup removals). -/
theorem claim_c9_defaults_once :
    onInstalledWrites "install" = [StorageWrite.setSettings
      { extensionEnabled := true, autoRefresh := false, refreshInterval := 5000,
        notifications := true, theme := "light" }]
    ∧ (∀ reason : String, reason ≠ "install" → onInstalledWrites reason = [])
    ∧ (∀ (settings : ExtSettings) (now : Int) (st : Storage),
        ∀ w ∈ onStartupWrites settings now st,
        ∀ v : DefaultSettings, w ≠ StorageWrite.setSettings v) := by
  refine ⟨rfl, ?_, ?_⟩
  · intro reason h
    simp [onInstalledWrites, h]
  · intro settings now st w hw v
    rw [show onStartupWrites settings now st
        = initBackgroundTasksWrites settings now st ++ [] from rfl,
      List.append_nil] at hw
    rcases initWrites_shape settings now st w hw with ⟨k, hk⟩ | ⟨ks, hks⟩
    · rw [hk]
      intro he
      cases he
    · rw [hks]
      intro he
      cases he

/-- Witness for C9: the update reason writes nothing, and the startup write
produced with auto-sync enabled is the sync key write, not a settings
write. -/
theorem claim_c9_defaults_once_witness :
    onInstalledWrites "update" = []
    ∧ StorageWrite.setKey "flexPortalData" ≠ StorageWrite.setSettings
        { extensionEnabled := true, autoRefresh := false, refreshInterval := 5000,
          notifications := true, theme := "light" } := by
  refine ⟨claim_c9_defaults_once.2.1 "update" (by decide), ?_⟩
  exact claim_c9_defaults_once.2.2 { enableAutoSync := true } 0 []
    (StorageWrite.setKey "flexPortalData") (by decide)
    { extensionEnabled := true, autoRefresh := false, refreshInterval := 5000,
      notifications := true, theme := "light" }

end FlexPortal
